import Mathlib

/-!
Shallow embedding of `src/binary/object.hpp` from the cpptrace repository:
the address-to-object resolution pipeline.  Addresses (`frame_ptr`,
`std::uintptr_t`) are modelled as `Nat` with explicit wraparound modulo
`2 ^ 64` where the C++ performs unsigned arithmetic.  The process-wide
static caches (`std::unordered_map` guarded by a mutex) are modelled as
association lists threaded explicitly through each operation.  The
platform oracles (`dladdr`, `_dl_find_object`, `readlink`,
`GetModuleHandleExA`, `GetModuleFileNameA`) and the binary-format
resolvers (`elf_get_module_image_base`, `mach_o::get_text_vmaddr`,
`pe_get_module_image_base`) are external collaborators, modelled as
function parameters; every invocation of a binary-format resolver or of
`GetModuleFileNameA` is recorded in an explicit call log so that the
caching claims ("parsed at most once per path") are observable.
-/

namespace Cpptrace

/-- Width of `std::uintptr_t`: the target is 64-bit. -/
def UPTR_MOD : Nat := 2 ^ 64

/-- Wrapping unsigned addition on `std::uintptr_t` values. -/
def uadd (a b : Nat) : Nat := (a + b) % UPTR_MOD

/-- Wrapping unsigned subtraction on `std::uintptr_t` values. -/
def usub (a b : Nat) : Nat := (a + (UPTR_MOD - b % UPTR_MOD)) % UPTR_MOD

/-- `cpptrace::object_frame`: the fully resolved result of one address. -/
structure object_frame where
  raw_address : Nat
  object_address : Nat
  object_path : String
  deriving Repr, DecidableEq

/-- `cpptrace::safe_object_frame`: the intermediate result of the safe
(deferred) protocol, carrying `raw_address - runtime_base` and the module
path, computed without any binary parsing. -/
structure safe_object_frame where
  raw_address : Nat
  address_relative_to_object_start : Nat
  object_path : String
  deriving Repr, DecidableEq

/-- The process-wide `std::unordered_map<std::string, std::uintptr_t>`
image-base cache, as an association list (most recent insertion first). -/
abbrev ImageBaseCache := List (String × Nat)

/-- `cache.find(key)` on the image-base cache. -/
def cacheLookup (cache : ImageBaseCache) (key : String) : Option Nat :=
  match cache with
  | [] => none
  | (k, v) :: rest => if k = key then some v else cacheLookup rest key

/-- `detail::get_module_image_base` (all three platform copies share this
shape): look the path up in the static cache; on a miss invoke the
binary-format resolver (`elf_get_module_image_base` /
`mach_o(path).get_text_vmaddr()` / `pe_get_module_image_base`), insert the
result and return it; on a hit return the stored value without touching
the resolver.  Returns `(image base, updated cache, resolver-call log)`;
the log lists the paths handed to the binary-format resolver during this
call (empty on a cache hit). -/
def get_module_image_base (resolver : String → Nat) (cache : ImageBaseCache)
    (object_path : String) : Nat × ImageBaseCache × List String :=
  match cacheLookup cache object_path with
  | none =>
      let base := resolver object_path
      (base, (object_path, base) :: cache, [object_path])
  | some v => (v, cache, [])

/-- The Windows-only `std::unordered_map<HMODULE, std::string>` cache of
`get_module_name`, keyed by module handle (an address, so a `Nat`). -/
abbrev ModuleNameCache := List (Nat × String)

/-- `cache.find(handle)` on the handle-to-path cache. -/
def handleLookup (cache : ModuleNameCache) (key : Nat) : Option String :=
  match cache with
  | [] => none
  | (k, v) :: rest => if k = key then some v else handleLookup rest key

/-- `detail::get_module_name` (Windows): look the handle up in the static
cache; on a miss call `GetModuleFileNameA` — on success cache and return
the path, on failure print a diagnostic (not modelled) and cache and
return the empty string; on a hit return the stored string.  The oracle
`getModuleFileNameA` returns `none` when the OS call fails.  Returns
`(name, updated cache, OS-call log)`; the log lists the handles passed to
`GetModuleFileNameA` during this call. -/
def get_module_name (getModuleFileNameA : Nat → Option String)
    (cache : ModuleNameCache) (handle : Nat) : String × ModuleNameCache × List Nat :=
  match handleLookup cache handle with
  | none =>
      match getModuleFileNameA handle with
      | some path => (path, (handle, path) :: cache, [handle])
      | none => ("", (handle, "") :: cache, [handle])
  | some s => (s, cache, [])

/-- `detail::get_frame_object_info`, `dladdr` variant (the portable POSIX
fallback, compiled when `CPPTRACE_HAS_DL_FIND_OBJECT` is absent).  The
oracle `dladdr` returns `some (dli_fname, dli_fbase)` on success, `none`
on failure.  The frame starts as `{address, 0, ""}`; on success the path
is `info.dli_fname` and the object address is
`address - info.dli_fbase + get_module_image_base(info.dli_fname)` in
wrapping `uintptr_t` arithmetic. -/
def get_frame_object_info (dladdr : Nat → Option (String × Nat))
    (resolver : String → Nat) (cache : ImageBaseCache) (address : Nat) :
    object_frame × ImageBaseCache × List String :=
  match dladdr address with
  | none =>
      ({ raw_address := address, object_address := 0, object_path := "" }, cache, [])
  | some (dli_fname, dli_fbase) =>
      let r := get_module_image_base resolver cache dli_fname
      ({ raw_address := address,
         object_address := uadd (usub address dli_fbase) r.1,
         object_path := dli_fname }, r.2.1, r.2.2)

/-- `detail::get_frame_object_info`, `_dl_find_object` variant (compiled
when `CPPTRACE_HAS_DL_FIND_OBJECT` is defined).  The oracle
`dlFindObject` returns `some (l_name, l_addr)` on success (`l_name` is
the link map's name, empty or null for the running executable — both
modelled as the empty string); `readlinkSelfExe` is the result of
`readlink("/proc/self/exe", ...)`, `none` on failure.  On success with an
empty `l_name`, the path is recovered via `readlink`; if that fails the
path stays empty (the source's `// error handling?` branch) and the
object address is still computed from `get_module_image_base` of the
(empty) path. -/
def get_frame_object_info_dlfo (dlFindObject : Nat → Option (String × Nat))
    (readlinkSelfExe : Option String) (resolver : String → Nat)
    (cache : ImageBaseCache) (address : Nat) :
    object_frame × ImageBaseCache × List String :=
  match dlFindObject address with
  | none =>
      ({ raw_address := address, object_address := 0, object_path := "" }, cache, [])
  | some (l_name, l_addr) =>
      let object_path :=
        if l_name ≠ "" then l_name
        else
          match readlinkSelfExe with
          | some buffer => buffer
          | none => ""
      let r := get_module_image_base resolver cache object_path
      ({ raw_address := address,
         object_address := uadd (usub address l_addr) r.1,
         object_path := object_path }, r.2.1, r.2.2)

/-- `detail::get_frame_object_info`, Windows variant.  The oracle
`getModuleHandle` models `GetModuleHandleExA(..UNCHANGED_REFCOUNT |
..FROM_ADDRESS, address, &handle)`, returning the handle (which is the
module's base address) on success and `none` on failure (in which case
the source prints a diagnostic and returns the initial frame).  On
success the path comes from the memoized `get_module_name` and the object
address is `address - handle + get_module_image_base(path)`. -/
def get_frame_object_info_windows (getModuleHandle : Nat → Option Nat)
    (getModuleFileNameA : Nat → Option String) (resolver : String → Nat)
    (nameCache : ModuleNameCache) (cache : ImageBaseCache) (address : Nat) :
    object_frame × ModuleNameCache × ImageBaseCache × List String :=
  match getModuleHandle address with
  | none =>
      ({ raw_address := address, object_address := 0, object_path := "" },
       nameCache, cache, [])
  | some handle =>
      let n := get_module_name getModuleFileNameA nameCache handle
      let r := get_module_image_base resolver cache n.1
      ({ raw_address := address,
         object_address := uadd (usub address handle) r.1,
         object_path := n.1 }, n.2.1, r.2.1, r.2.2)

/-- `detail::get_frames_object_info`: resolve a batch of addresses by
calling `get_frame_object_info` on each in input order, appending each
result (the `dladdr` variant is the one threaded here; the source calls
whichever single variant was compiled).  The cache is threaded through
the batch and the resolver-call logs are concatenated. -/
def get_frames_object_info (dladdr : Nat → Option (String × Nat))
    (resolver : String → Nat) (cache : ImageBaseCache) (addresses : List Nat) :
    List object_frame × ImageBaseCache × List String :=
  match addresses with
  | [] => ([], cache, [])
  | address :: rest =>
      let r := get_frame_object_info dladdr resolver cache address
      let rs := get_frames_object_info dladdr resolver r.2.1 rest
      (r.1 :: rs.1, rs.2.1, r.2.2 ++ rs.2.2)

/-- `detail::resolve_safe_object_frame`: build the final `object_frame`
from a `safe_object_frame` by adding the image base of the stored path
(obtained through the cache) to the stored module-relative offset, in
wrapping `uintptr_t` arithmetic. -/
def resolve_safe_object_frame (resolver : String → Nat) (cache : ImageBaseCache)
    (frame : safe_object_frame) : object_frame × ImageBaseCache × List String :=
  let r := get_module_image_base resolver cache frame.object_path
  ({ raw_address := frame.raw_address,
     object_address := uadd frame.address_relative_to_object_start r.1,
     object_path := frame.object_path }, r.2.1, r.2.2)

/-- Modelled from the spec: the capture half of the safe resolution
protocol (`capture_safe` in section 4.5) is not part of `object.hpp` —
only the resolution half `resolve_safe_object_frame` is.  Per the spec it
performs only the Module Locator step, storing
`address - runtime_base` and the module path, and must not invoke the
image-base cache or any binary-format parser; a failed lookup yields the
"none" result (empty path, zero offset). -/
def capture_safe (dladdr : Nat → Option (String × Nat)) (address : Nat) :
    safe_object_frame :=
  match dladdr address with
  | none =>
      { raw_address := address, address_relative_to_object_start := 0,
        object_path := "" }
  | some (dli_fname, dli_fbase) =>
      { raw_address := address,
        address_relative_to_object_start := usub address dli_fbase,
        object_path := dli_fname }

/-- A sequence of image-base cache lookups (what a run of resolutions
funnels into the cache), threading the cache and accumulating the
binary-format resolver call log. -/
def run_image_base_lookups (resolver : String → Nat) (cache : ImageBaseCache) :
    List String → ImageBaseCache × List String
  | [] => (cache, [])
  | p :: rest =>
      let r := get_module_image_base resolver cache p
      let rs := run_image_base_lookups resolver r.2.1 rest
      (rs.1, r.2.2 ++ rs.2)

/-- A sequence of `get_module_name` lookups (Windows), threading the
handle cache and accumulating the `GetModuleFileNameA` call log. -/
def run_module_name_lookups (getModuleFileNameA : Nat → Option String)
    (cache : ModuleNameCache) : List Nat → ModuleNameCache × List Nat
  | [] => (cache, [])
  | h :: rest =>
      let r := get_module_name getModuleFileNameA cache h
      let rs := run_module_name_lookups getModuleFileNameA r.2.1 rest
      (rs.1, r.2.2 ++ rs.2)

/-- A cache state is consistent with a (pure, immutable-binaries)
resolver when every stored entry holds exactly what the resolver returns
for its path.  The empty cache is consistent, and every operation
preserves consistency. -/
def cacheConsistent (resolver : String → Nat) (cache : ImageBaseCache) : Prop :=
  ∀ p v, cacheLookup cache p = some v → v = resolver p

/-! ## Helper lemmas -/

/-- Wrapping subtraction agrees with `Nat` subtraction when the minuend is
in range and no underflow occurs. -/
theorem usub_eq_sub (a r : Nat) (ha : a < UPTR_MOD) (hr : r ≤ a) :
    usub a r = a - r := by
  have hrm : r % 2 ^ 64 = r := Nat.mod_eq_of_lt (lt_of_le_of_lt hr ha)
  simp only [usub, UPTR_MOD] at *
  rw [hrm]
  have h2 : a + (2 ^ 64 - r) = (a - r) + 2 ^ 64 := by omega
  rw [h2, Nat.add_mod_right, Nat.mod_eq_of_lt (by omega)]

/-- Wrapping addition agrees with `Nat` addition when no overflow occurs. -/
theorem uadd_eq_add (a b : Nat) (h : a + b < UPTR_MOD) : uadd a b = a + b := by
  simp only [uadd, UPTR_MOD] at *
  exact Nat.mod_eq_of_lt h

/-- Under a consistent cache, the image-base lookup returns exactly what
the binary-format resolver returns for that path. -/
theorem gmib_val_of_consistent (resolver : String → Nat) (cache : ImageBaseCache)
    (p : String) (hc : cacheConsistent resolver cache) :
    (get_module_image_base resolver cache p).1 = resolver p := by
  unfold get_module_image_base
  cases h : cacheLookup cache p with
  | none => rfl
  | some v => exact hc p v h

/-- An image-base lookup leaves the cache consistent. -/
theorem gmib_preserves_consistent (resolver : String → Nat) (cache : ImageBaseCache)
    (p : String) (hc : cacheConsistent resolver cache) :
    cacheConsistent resolver (get_module_image_base resolver cache p).2.1 := by
  unfold get_module_image_base
  cases h : cacheLookup cache p with
  | none =>
      intro q v hq
      simp only [cacheLookup] at hq
      by_cases hpq : p = q
      · subst hpq
        simp at hq
        omega
      · simp [hpq] at hq
        exact hc q v hq
  | some v => exact hc

/-- Under a consistent cache, the frame produced by the `dladdr` variant
depends only on the address (via the locator and the pure resolver), not
on the particular cache state. -/
theorem gfoi_val_of_consistent (dladdr : Nat → Option (String × Nat))
    (resolver : String → Nat) (cache : ImageBaseCache) (a : Nat)
    (hc : cacheConsistent resolver cache) :
    (get_frame_object_info dladdr resolver cache a).1 =
      match dladdr a with
      | none => { raw_address := a, object_address := 0, object_path := "" }
      | some (p, r) =>
          { raw_address := a, object_address := uadd (usub a r) (resolver p),
            object_path := p } := by
  unfold get_frame_object_info
  cases h : dladdr a with
  | none => rfl
  | some pr =>
      obtain ⟨p, r⟩ := pr
      simp only
      rw [gmib_val_of_consistent resolver cache p hc]

/-- Resolving one frame leaves the image-base cache consistent. -/
theorem gfoi_preserves_consistent (dladdr : Nat → Option (String × Nat))
    (resolver : String → Nat) (cache : ImageBaseCache) (a : Nat)
    (hc : cacheConsistent resolver cache) :
    cacheConsistent resolver (get_frame_object_info dladdr resolver cache a).2.1 := by
  unfold get_frame_object_info
  cases h : dladdr a with
  | none => exact hc
  | some pr =>
      obtain ⟨p, r⟩ := pr
      exact gmib_preserves_consistent resolver cache p hc

/-- Inserting an entry for a different path does not change a lookup. -/
theorem cacheLookup_cons_ne (cache : ImageBaseCache) (q p : String) (v : Nat)
    (h : q ≠ p) : cacheLookup ((q, v) :: cache) p = cacheLookup cache p := by
  simp [cacheLookup, h]

/-- Telescoping parse-count bound for one image-base lookup: the number of
resolver invocations for `p` during the call, plus one if `p` is still
uncached afterwards, is at most one if `p` was uncached before (and zero
otherwise). -/
theorem gmib_count_telescope (resolver : String → Nat) (cache : ImageBaseCache)
    (q p : String) :
    List.count p (get_module_image_base resolver cache q).2.2 +
      (if cacheLookup (get_module_image_base resolver cache q).2.1 p = none
        then 1 else 0) ≤
      (if cacheLookup cache p = none then 1 else 0) := by
  unfold get_module_image_base
  cases h : cacheLookup cache q with
  | none =>
      by_cases hpq : q = p
      · subst hpq
        simp [cacheLookup, h, List.count_cons]
      · simp only
        rw [cacheLookup_cons_ne cache q p _ hpq]
        simp [List.count_cons, hpq]
  | some v => simp

/-- Telescoping parse-count bound for resolving one frame. -/
theorem gfoi_count_telescope (dladdr : Nat → Option (String × Nat))
    (resolver : String → Nat) (cache : ImageBaseCache) (a : Nat) (p : String) :
    List.count p (get_frame_object_info dladdr resolver cache a).2.2 +
      (if cacheLookup (get_frame_object_info dladdr resolver cache a).2.1 p = none
        then 1 else 0) ≤
      (if cacheLookup cache p = none then 1 else 0) := by
  unfold get_frame_object_info
  cases h : dladdr a with
  | none => simp
  | some pr =>
      obtain ⟨q, r⟩ := pr
      exact gmib_count_telescope resolver cache q p

/-- Telescoping parse-count bound for a whole batch resolution. -/
theorem batch_count_telescope (dladdr : Nat → Option (String × Nat))
    (resolver : String → Nat) (p : String) :
    ∀ (addresses : List Nat) (cache : ImageBaseCache),
      List.count p (get_frames_object_info dladdr resolver cache addresses).2.2 +
        (if cacheLookup (get_frames_object_info dladdr resolver cache addresses).2.1 p
            = none then 1 else 0) ≤
        (if cacheLookup cache p = none then 1 else 0)
  | [], cache => by simp [get_frames_object_info]
  | a :: rest, cache => by
      have h1 := gfoi_count_telescope dladdr resolver cache a p
      have h2 := batch_count_telescope dladdr resolver p rest
        (get_frame_object_info dladdr resolver cache a).2.1
      simp only [get_frames_object_info, List.count_append]
      omega

/-- Telescoping parse-count bound for a sequence of cache lookups. -/
theorem run_count_telescope (resolver : String → Nat) (p : String) :
    ∀ (ps : List String) (cache : ImageBaseCache),
      List.count p (run_image_base_lookups resolver cache ps).2 +
        (if cacheLookup (run_image_base_lookups resolver cache ps).1 p = none
          then 1 else 0) ≤
        (if cacheLookup cache p = none then 1 else 0)
  | [], cache => by simp [run_image_base_lookups]
  | q :: rest, cache => by
      have h1 := gmib_count_telescope resolver cache q p
      have h2 := run_count_telescope resolver p rest
        (get_module_image_base resolver cache q).2.1
      simp only [run_image_base_lookups, List.count_append]
      omega

/-- Inserting an entry for a different handle does not change a lookup. -/
theorem handleLookup_cons_ne (cache : ModuleNameCache) (q h : Nat) (v : String)
    (hne : q ≠ h) : handleLookup ((q, v) :: cache) h = handleLookup cache h := by
  simp [handleLookup, hne]

/-- Telescoping OS-call-count bound for one `get_module_name` lookup. -/
theorem gmn_count_telescope (getModuleFileNameA : Nat → Option String)
    (cache : ModuleNameCache) (q h : Nat) :
    List.count h (get_module_name getModuleFileNameA cache q).2.2 +
      (if handleLookup (get_module_name getModuleFileNameA cache q).2.1 h = none
        then 1 else 0) ≤
      (if handleLookup cache h = none then 1 else 0) := by
  unfold get_module_name
  cases hl : handleLookup cache q with
  | none =>
      cases hf : getModuleFileNameA q with
      | none =>
          by_cases hqh : q = h
          · subst hqh
            simp [handleLookup, hl, List.count_cons]
          · simp only
            rw [handleLookup_cons_ne cache q h _ hqh]
            simp [List.count_cons, hqh]
      | some path =>
          by_cases hqh : q = h
          · subst hqh
            simp [handleLookup, hl, List.count_cons]
          · simp only
            rw [handleLookup_cons_ne cache q h _ hqh]
            simp [List.count_cons, hqh]
  | some s => simp

/-- Telescoping OS-call-count bound for a sequence of name lookups. -/
theorem run_name_count_telescope (getModuleFileNameA : Nat → Option String)
    (h : Nat) :
    ∀ (hs : List Nat) (cache : ModuleNameCache),
      List.count h (run_module_name_lookups getModuleFileNameA cache hs).2 +
        (if handleLookup (run_module_name_lookups getModuleFileNameA cache hs).1 h
            = none then 1 else 0) ≤
        (if handleLookup cache h = none then 1 else 0)
  | [], cache => by simp [run_module_name_lookups]
  | q :: rest, cache => by
      have h1 := gmn_count_telescope getModuleFileNameA cache q h
      have h2 := run_name_count_telescope getModuleFileNameA h rest
        (get_module_name getModuleFileNameA cache q).2.1
      simp only [run_module_name_lookups, List.count_append]
      omega

/-- Under any consistent starting cache, a batch resolution produces the
pointwise one-shot frames in input order. -/
theorem batch_val_of_consistent (dladdr : Nat → Option (String × Nat))
    (resolver : String → Nat) :
    ∀ (addresses : List Nat) (cache : ImageBaseCache),
      cacheConsistent resolver cache →
      (get_frames_object_info dladdr resolver cache addresses).1 =
        addresses.map (fun a =>
          match dladdr a with
          | none => { raw_address := a, object_address := 0, object_path := "" }
          | some (p, r) =>
              { raw_address := a, object_address := uadd (usub a r) (resolver p),
                object_path := p })
  | [], cache, _ => by simp [get_frames_object_info]
  | a :: rest, cache, hc => by
      simp only [get_frames_object_info, List.map_cons]
      rw [gfoi_val_of_consistent dladdr resolver cache a hc,
        batch_val_of_consistent dladdr resolver rest
          (get_frame_object_info dladdr resolver cache a).2.1
          (gfoi_preserves_consistent dladdr resolver cache a hc)]

/-! ## Claim theorems -/

/-- Claim C1: for every raw address `a` that the module locator resolves
to a loaded module with filesystem path `p` and runtime base `r`, and
whose link-time image base is `b = image_base(p)` (as computed through
the image-base cache), `get_frame_object_info a` returns an object frame
with `object_path = p` and `object_address = a - r + b`.  Stated for the
`dladdr` variant; the in-range hypotheses say the `uintptr_t` arithmetic
neither underflows nor overflows, which is the regime the claim's
ordinary subtraction and addition describe. -/
theorem c1_object_address_formula (dladdr : Nat → Option (String × Nat))
    (resolver : String → Nat) (cache : ImageBaseCache) (a r b : Nat) (p : String)
    (hloc : dladdr a = some (p, r))
    (hb : (get_module_image_base resolver cache p).1 = b)
    (ha : a < UPTR_MOD) (hra : r ≤ a) (hfit : a - r + b < UPTR_MOD) :
    (get_frame_object_info dladdr resolver cache a).1.object_path = p ∧
    (get_frame_object_info dladdr resolver cache a).1.object_address = a - r + b := by
  unfold get_frame_object_info
  rw [hloc]
  refine ⟨rfl, ?_⟩
  simp only [hb]
  rw [usub_eq_sub a r ha hra, uadd_eq_add _ b hfit]

/-- Witness for C1: the spec's scenario — `main` loaded at runtime base
`0x1000` with link-time base `0`; the address `0x1050` inside it resolves
to path `"main"` and object address `0x50`. -/
theorem c1_witness :
    (get_frame_object_info (fun x => if x = 4176 then some ("main", 4096) else none)
      (fun _ => 0) [] 4176).1.object_path = "main" ∧
    (get_frame_object_info (fun x => if x = 4176 then some ("main", 4096) else none)
      (fun _ => 0) [] 4176).1.object_address = 80 := by
  have h := c1_object_address_formula
    (fun x => if x = 4176 then some ("main", 4096) else none)
    (fun _ => 0) [] 4176 4096 0 "main" (by decide) rfl (by decide) (by decide)
    (by decide)
  exact ⟨h.1, h.2⟩

/-- Claim C2: for every raw address whose module-locator lookup fails,
`get_frame_object_info` returns a frame with empty `object_path` and
`object_address = 0` (and the untouched raw address), leaves the caches
unchanged, invokes no binary-format resolver, and — being a total
function in this embedding, mirroring the exception-free source branch —
does not raise.  Stated simultaneously for all three platform variants. -/
theorem c2_unresolved_frame (dladdr dlfo : Nat → Option (String × Nat))
    (rl : Option String) (gmh : Nat → Option Nat) (gmfn : Nat → Option String)
    (resolver : String → Nat) (ncache : ModuleNameCache) (cache : ImageBaseCache)
    (a : Nat) (h1 : dladdr a = none) (h2 : dlfo a = none) (h3 : gmh a = none) :
    get_frame_object_info dladdr resolver cache a =
      ({ raw_address := a, object_address := 0, object_path := "" }, cache, []) ∧
    get_frame_object_info_dlfo dlfo rl resolver cache a =
      ({ raw_address := a, object_address := 0, object_path := "" }, cache, []) ∧
    get_frame_object_info_windows gmh gmfn resolver ncache cache a =
      ({ raw_address := a, object_address := 0, object_path := "" },
        ncache, cache, []) := by
  unfold get_frame_object_info get_frame_object_info_dlfo
    get_frame_object_info_windows
  rw [h1, h2, h3]
  exact ⟨rfl, rfl, rfl⟩

/-- Witness for C2: the spec's scenario address `0x9000` belonging to no
module resolves to the empty path and zero object address in all three
variants. -/
theorem c2_witness :
    get_frame_object_info (fun _ => none) (fun _ => 0) [] 36864 =
      ({ raw_address := 36864, object_address := 0, object_path := "" }, [], []) ∧
    get_frame_object_info_dlfo (fun _ => none) none (fun _ => 0) [] 36864 =
      ({ raw_address := 36864, object_address := 0, object_path := "" }, [], []) ∧
    get_frame_object_info_windows (fun _ => none) (fun _ => none) (fun _ => 0)
        [] [] 36864 =
      ({ raw_address := 36864, object_address := 0, object_path := "" },
        [], [], []) :=
  c2_unresolved_frame (fun _ => none) (fun _ => none) none (fun _ => none)
    (fun _ => none) (fun _ => 0) [] [] 36864 rfl rfl rfl

/-- Claim C3: capturing a safe object frame for an address (module
identification only) and later resolving it via
`resolve_safe_object_frame` yields exactly the frame that
`get_frame_object_info` produces directly, provided no module load/unload
happens in between (same locator answer, same cache state).  The
hypotheses say the binary-format resolver fails closed on the empty path
(the spec's zero sentinel, section 4.3) and that the cache is consistent
with the (pure) resolver. -/
theorem c3_safe_roundtrip (dladdr : Nat → Option (String × Nat))
    (resolver : String → Nat) (cache : ImageBaseCache) (a : Nat)
    (hempty : resolver "" = 0) (hc : cacheConsistent resolver cache) :
    (resolve_safe_object_frame resolver cache (capture_safe dladdr a)).1 =
      (get_frame_object_info dladdr resolver cache a).1 := by
  unfold capture_safe get_frame_object_info resolve_safe_object_frame
  cases h : dladdr a with
  | none =>
      simp only
      have hv := gmib_val_of_consistent resolver cache "" hc
      rw [hv, hempty]
      rfl
  | some pr =>
      obtain ⟨p, r⟩ := pr
      rfl

/-- Witness for C3: an address inside module `"m"` (runtime base 2, image
base 1024) round-trips through the safe protocol to the same frame as
direct resolution. -/
theorem c3_witness :
    (resolve_safe_object_frame (fun q => if q = "m" then 1024 else 0) []
        (capture_safe (fun x => if x = 7 then some ("m", 2) else none) 7)).1 =
      (get_frame_object_info (fun x => if x = 7 then some ("m", 2) else none)
        (fun q => if q = "m" then 1024 else 0) [] 7).1 :=
  c3_safe_roundtrip (fun x => if x = 7 then some ("m", 2) else none)
    (fun q => if q = "m" then 1024 else 0) [] 7 (by decide)
    (fun p v h => by simp [cacheLookup] at h)

/-- Claim C4 counterexample: in the `_dl_find_object` variant, when the
link map reports an empty name (main executable) and the `readlink`
path recovery fails, the returned frame has an EMPTY `object_path`
together with a NON-ZERO `object_address` (here address 5, runtime base
3, sentinel image base 0 gives object address 2), refuting the claimed
dichotomy. -/
theorem c4_counterexample :
    (get_frame_object_info_dlfo (fun x => if x = 5 then some ("", 3) else none)
      none (fun _ => 0) [] 5).1.object_path = "" ∧
    (get_frame_object_info_dlfo (fun x => if x = 5 then some ("", 3) else none)
      none (fun _ => 0) [] 5).1.object_address ≠ 0 := by
  constructor
  · rfl
  · decide

/-- Claim C4 as amended: the two-state dichotomy (non-empty path, or
empty path with zero address) holds whenever the module locator never
reports an empty module name — in particular always in the `dladdr`
variant under that proviso; in the `_dl_find_object` variant a successful
lookup whose `readlink` path recovery fails (and in the Windows variant a
failed handle-to-path lookup) can instead yield an empty `object_path`
with a non-zero `object_address`. -/
theorem c4_amended_dichotomy (dladdr : Nat → Option (String × Nat))
    (resolver : String → Nat) (cache : ImageBaseCache) (a : Nat)
    (hname : ∀ x p r, dladdr x = some (p, r) → p ≠ "") :
    (get_frame_object_info dladdr resolver cache a).1.object_path ≠ "" ∨
    ((get_frame_object_info dladdr resolver cache a).1.object_path = "" ∧
      (get_frame_object_info dladdr resolver cache a).1.object_address = 0) := by
  unfold get_frame_object_info
  cases h : dladdr a with
  | none => exact Or.inr ⟨rfl, rfl⟩
  | some pr =>
      obtain ⟨p, r⟩ := pr
      exact Or.inl (hname a p r h)

/-- Witness for the amended C4: with no module mapped at any address, the
dichotomy holds (the unresolved case). -/
theorem c4_amended_witness :
    (get_frame_object_info (fun _ => none) (fun _ => 0) [] 0).1.object_path ≠ "" ∨
    ((get_frame_object_info (fun _ => none) (fun _ => 0) [] 0).1.object_path = "" ∧
      (get_frame_object_info (fun _ => none) (fun _ => 0) [] 0).1.object_address
        = 0) :=
  c4_amended_dichotomy (fun _ => none) (fun _ => 0) [] 0
    (fun _ _ _ h => Option.noConfusion h)

/-- Claim C5: the image-base cache invokes the binary-format resolver at
most once per path across any sequence of lookups from a fresh
process-lifetime cache; a lookup stores its result in the cache; a
repeated lookup for the same path returns the bit-identical stored value
with no resolver invocation; and a whole batch of address resolutions
(several addresses mapping to the same module path included) triggers at
most one parse per path. -/
theorem c5_parse_at_most_once (dladdr : Nat → Option (String × Nat))
    (resolver : String → Nat) (cache : ImageBaseCache) (p : String)
    (ps : List String) (addresses : List Nat) :
    List.count p (run_image_base_lookups resolver [] ps).2 ≤ 1 ∧
    cacheLookup (get_module_image_base resolver cache p).2.1 p =
      some (get_module_image_base resolver cache p).1 ∧
    get_module_image_base resolver (get_module_image_base resolver cache p).2.1 p =
      ((get_module_image_base resolver cache p).1,
        (get_module_image_base resolver cache p).2.1, []) ∧
    List.count p (get_frames_object_info dladdr resolver [] addresses).2.2 ≤ 1 := by
  have hstore : cacheLookup (get_module_image_base resolver cache p).2.1 p =
      some (get_module_image_base resolver cache p).1 := by
    unfold get_module_image_base
    cases h : cacheLookup cache p with
    | none => simp [cacheLookup]
    | some v => exact h
  have hhit : ∀ (c : ImageBaseCache) (v : Nat), cacheLookup c p = some v →
      get_module_image_base resolver c p = (v, c, []) := by
    intro c v h
    unfold get_module_image_base
    rw [h]
  refine ⟨?_, hstore, hhit _ _ hstore, ?_⟩
  · have h := run_count_telescope resolver p ps []
    simp [cacheLookup] at h
    omega
  · have h := batch_count_telescope dladdr resolver p addresses []
    simp [cacheLookup] at h
    omega

/-- Claim C6: `resolve_safe_object_frame` returns a frame whose
`object_address` is the stored module-relative offset plus the image base
that the cache returns for the stored path (no-overflow hypothesis, the
regime the claim's ordinary addition describes). -/
theorem c6_resolve_safe_formula (resolver : String → Nat) (cache : ImageBaseCache)
    (frame : safe_object_frame) (b : Nat)
    (hb : (get_module_image_base resolver cache frame.object_path).1 = b)
    (hfit : frame.address_relative_to_object_start + b < UPTR_MOD) :
    (resolve_safe_object_frame resolver cache frame).1.object_address =
      frame.address_relative_to_object_start + b := by
  unfold resolve_safe_object_frame
  simp only [hb]
  exact uadd_eq_add _ b hfit

/-- Witness for C6: a safe frame with offset `0x50` into module `"m"`
whose image base is `0x400` resolves to object address `0x450`. -/
theorem c6_witness :
    (resolve_safe_object_frame (fun q => if q = "m" then 1024 else 0) []
      { raw_address := 99, address_relative_to_object_start := 80,
        object_path := "m" }).1.object_address = 80 + 1024 :=
  c6_resolve_safe_formula (fun q => if q = "m" then 1024 else 0) []
    { raw_address := 99, address_relative_to_object_start := 80,
      object_path := "m" } 1024 rfl (by decide)

/-- Claim C7: a batch resolution of `n` addresses returns exactly `n`
frames in input order, the `i`-th being the one-shot resolution of the
`i`-th address, and no per-address failure (locator miss) aborts the rest
of the batch — the result is the pointwise map, failures included.  The
consistency hypothesis says the starting cache holds what the (pure,
immutable-binaries) resolver returns, which is how every cache state
arises in the source. -/
theorem c7_batch_pointwise (dladdr : Nat → Option (String × Nat))
    (resolver : String → Nat) (cache : ImageBaseCache) (addresses : List Nat)
    (hc : cacheConsistent resolver cache) :
    (get_frames_object_info dladdr resolver cache addresses).1.length =
      addresses.length ∧
    (get_frames_object_info dladdr resolver cache addresses).1 =
      addresses.map (fun a => (get_frame_object_info dladdr resolver cache a).1) := by
  have hval := batch_val_of_consistent dladdr resolver addresses cache hc
  have hmap : addresses.map
      (fun a => (get_frame_object_info dladdr resolver cache a).1) =
      addresses.map (fun a =>
        match dladdr a with
        | none => { raw_address := a, object_address := 0, object_path := "" }
        | some (p, r) =>
            { raw_address := a, object_address := uadd (usub a r) (resolver p),
              object_path := p }) :=
    List.map_congr_left (fun a _ => gfoi_val_of_consistent dladdr resolver cache a hc)
  constructor
  · rw [hval, List.length_map]
  · rw [hval, hmap]

/-- Witness for C7: the spec's scenario batch — `0x1050` in `main`,
`0x5080` in `libfoo`, `0x9000` in no module — resolves pointwise and in
order from a fresh cache. -/
theorem c7_witness :
    (get_frames_object_info
        (fun x => if x = 4176 then some ("main", 4096)
          else if x = 20608 then some ("libfoo", 20480) else none)
        (fun q => if q = "libfoo" then 1024 else 0) []
        [4176, 20608, 36864]).1.length = 3 ∧
    (get_frames_object_info
        (fun x => if x = 4176 then some ("main", 4096)
          else if x = 20608 then some ("libfoo", 20480) else none)
        (fun q => if q = "libfoo" then 1024 else 0) []
        [4176, 20608, 36864]).1 =
      [4176, 20608, 36864].map (fun a =>
        (get_frame_object_info
          (fun x => if x = 4176 then some ("main", 4096)
            else if x = 20608 then some ("libfoo", 20480) else none)
          (fun q => if q = "libfoo" then 1024 else 0) [] a).1) := by
  have h := c7_batch_pointwise
    (fun x => if x = 4176 then some ("main", 4096)
      else if x = 20608 then some ("libfoo", 20480) else none)
    (fun q => if q = "libfoo" then 1024 else 0) [] [4176, 20608, 36864]
    (fun p v hpv => by simp [cacheLookup] at hpv)
  exact ⟨h.1, h.2⟩

/-- Claim C8 counterexample: after a transient resolver failure for
`"libfoo.so"` stores the zero sentinel, a later lookup with a resolver
that would now succeed (returning 1024) still returns the cached 0 and
performs no parse — the failed sentinel IS retained for the rest of the
process lifetime, refuting the claim that a later lookup may reattempt. -/
theorem c8_counterexample :
    get_module_image_base (fun _ => 0) [] "libfoo.so" =
      (0, [("libfoo.so", 0)], ["libfoo.so"]) ∧
    get_module_image_base (fun _ => 1024) [("libfoo.so", 0)] "libfoo.so" =
      (0, [("libfoo.so", 0)], []) := by
  constructor <;> rfl

/-- Claim C8 as amended: when a binary-format resolver fails for a path
and returns the zero sentinel, the cache stores 0 for that path like any
other value, and every later lookup for that path in the same process
returns the cached sentinel without re-parsing — even if a re-parse would
now succeed; the caches are in-memory statics, so a reattempt happens
only at the next process start. -/
theorem c8_amended_sentinel_retained (resolver resolver2 : String → Nat)
    (p : String) (hfail : resolver p = 0) :
    get_module_image_base resolver [] p = (0, [(p, 0)], [p]) ∧
    get_module_image_base resolver2 [(p, 0)] p = (0, [(p, 0)], []) := by
  constructor
  · unfold get_module_image_base
    simp [cacheLookup, hfail]
  · unfold get_module_image_base
    simp [cacheLookup]

/-- Witness for the amended C8: a failing resolver caches the sentinel
for `"libbar.so"` and a succeeding resolver is never consulted again. -/
theorem c8_amended_witness :
    get_module_image_base (fun _ => 0) [] "libbar.so" =
      (0, [("libbar.so", 0)], ["libbar.so"]) ∧
    get_module_image_base (fun _ => 4096) [("libbar.so", 0)] "libbar.so" =
      (0, [("libbar.so", 0)], []) :=
  c8_amended_sentinel_retained (fun _ => 0) (fun _ => 4096) "libbar.so" rfl

/-- Claim C9: every variant of `get_frame_object_info` preserves the
input address in the returned frame's `raw_address`, in every branch —
locator success, locator failure, and path-recovery failure alike. -/
theorem c9_raw_address_preserved (dladdr dlfo : Nat → Option (String × Nat))
    (rl : Option String) (gmh : Nat → Option Nat) (gmfn : Nat → Option String)
    (resolver : String → Nat) (ncache : ModuleNameCache) (cache : ImageBaseCache)
    (a : Nat) :
    (get_frame_object_info dladdr resolver cache a).1.raw_address = a ∧
    (get_frame_object_info_dlfo dlfo rl resolver cache a).1.raw_address = a ∧
    (get_frame_object_info_windows gmh gmfn resolver ncache cache a).1.raw_address
      = a := by
  refine ⟨?_, ?_, ?_⟩
  · unfold get_frame_object_info
    cases dladdr a with
    | none => rfl
    | some pr => obtain ⟨p, r⟩ := pr; rfl
  · unfold get_frame_object_info_dlfo
    cases dlfo a with
    | none => rfl
    | some pr => obtain ⟨p, r⟩ := pr; rfl
  · unfold get_frame_object_info_windows
    cases gmh a with
    | none => rfl
    | some h => rfl

/-- Claim C10: the Windows `get_module_name` memoizes the handle-to-path
lookup per handle, failures included: on a miss with a failing
`GetModuleFileNameA` it returns and caches the empty string; a later
lookup for the same handle returns the cached empty string with no OS
call, even if the OS call would now succeed; and across any sequence of
lookups from a fresh cache the OS call is made at most once per handle. -/
theorem c10_module_name_memoized (gmfn gmfn2 : Nat → Option String) (h : Nat)
    (cache : ModuleNameCache) (hs : List Nat)
    (hfail : gmfn h = none) (hmiss : handleLookup cache h = none) :
    get_module_name gmfn cache h = ("", (h, "") :: cache, [h]) ∧
    get_module_name gmfn2 ((h, "") :: cache) h = ("", (h, "") :: cache, []) ∧
    List.count h (run_module_name_lookups gmfn [] hs).2 ≤ 1 := by
  refine ⟨?_, ?_, ?_⟩
  · unfold get_module_name
    rw [hmiss, hfail]
  · unfold get_module_name
    simp [handleLookup]
  · have hcnt := run_name_count_telescope gmfn h hs []
    simp [handleLookup] at hcnt
    omega

/-- Witness for C10: handle 7 fails its first lookup, the empty string is
cached, a now-succeeding oracle is not consulted, and three lookups from
a fresh cache make at most one OS call for handle 7. -/
theorem c10_witness :
    get_module_name (fun _ => none) [] 7 = ("", [(7, "")], [7]) ∧
    get_module_name (fun _ => some "m.dll") [(7, "")] 7 = ("", [(7, "")], []) ∧
    List.count 7 (run_module_name_lookups (fun _ => none) [] [7, 7, 9]).2 ≤ 1 :=
  c10_module_name_memoized (fun _ => none) (fun _ => some "m.dll") 7 [] [7, 7, 9]
    rfl rfl

end Cpptrace
